import Mathlib

/-!
Shallow embedding of the ShareCO2 chat subsystem
(`insertMessage`, `getMessagesByRide`, `validateCredentials`,
`getRideParticipants`) over an explicit relational store.

The Prisma store is modelled as lists of rows; `findUnique` becomes
`List.find?`, relation `include`s become filters over the related table,
`create` appends a row, and `orderBy createdAt asc` becomes a sort by the
`createdAt` field.  Thrown `Error`s become `Except.error` carrying the
exact message string of the source; store (query) failures are modelled by
`Raw` variants of the functions that receive the outcome of the store call
as an `Except`.
-/

namespace ShareCO2

/-- A `User` row: id, optional display name, email. -/
structure User where
  id : String
  name : Option String
  email : String
deriving Repr, DecidableEq

/-- A `Ride` row: id, driver reference, status string. -/
structure Ride where
  id : String
  driverId : String
  status : String
deriving Repr, DecidableEq

/-- A `Booking` row: id, ride reference, user reference, status string. -/
structure Booking where
  id : String
  rideId : String
  userId : String
  status : String
deriving Repr, DecidableEq

/-- A `ChatMessage` row: server-assigned id, ride reference, sender
reference, content, creation timestamp. -/
structure ChatMessage where
  id : Nat
  rideId : String
  userId : String
  content : String
  createdAt : Nat
deriving Repr, DecidableEq

/-- The relational store: the four tables, plus the server-assigned id
counter and clock used when creating a `ChatMessage`. -/
structure Store where
  rides : List Ride
  bookings : List Booking
  messages : List ChatMessage
  users : List User
  nextId : Nat
  now : Nat
deriving Repr

/-- `prisma.ride.findUnique({ where: { id: rideId } })`. -/
def Store.findRide (s : Store) (rideId : String) : Option Ride :=
  s.rides.find? (fun r => r.id == rideId)

/-- The `bookings: { where: { userId } }` include on a ride: the bookings
of that ride held by the given user, in store order. -/
def Store.bookingsFor (s : Store) (rideId userId : String) : List Booking :=
  s.bookings.filter (fun b => b.rideId == rideId && b.userId == userId)

/-- The unfiltered `bookings` include on a ride: all bookings of the ride,
in store order, any status. -/
def Store.bookingsOf (s : Store) (rideId : String) : List Booking :=
  s.bookings.filter (fun b => b.rideId == rideId)

/-- `prisma.user.findUnique` by id (the `user`/`driver` relation lookup). -/
def Store.findUser (s : Store) (uid : String) : Option User :=
  s.users.find? (fun u => u.id == uid)

/-- The row a relation `include` dereferences to.  Under the store's
foreign-key discipline the referenced row always exists; the default
(used only on ill-formed stores) keeps the function total and carries the
same id as the reference. -/
def userOrRef (s : Store) (uid : String) : User :=
  (s.findUser uid).getD { id := uid, name := none, email := "" }

/-- Message of the generic error substituted for a store failure in the
ride lookup ("Something went wrong. Please try again letter."). -/
def storeFailureMsg : String := "Something went wrong. Please try again letter."

/-- Message of the `NotFound` error ("Ride not found"). -/
def notFoundMsg : String := "Ride not found"

/-- Message of the `ChatClosed` error for a cancelled ride. -/
def rideCancelledMsg : String := "Ride is cancelled. Chat closed."

/-- Message of the `ChatClosed` error for a cancelled booking. -/
def bookingCancelledMsg : String := "Ride booking is cancelled. chat closed."

/-- Message of the `Unauthorized` error ("Unauthorized sender"). -/
def unauthorizedMsg : String := "Unauthorized sender"

/-- An error message belongs to the `ChatClosed` taxonomy entry. -/
def isChatClosed (e : String) : Prop :=
  e = rideCancelledMsg ∨ e = bookingCancelledMsg

instance (e : String) : Decidable (isChatClosed e) := by
  unfold isChatClosed; infer_instance

/-- `validateCredentials`, given the outcome of the
`prisma.ride.findUnique` call (the ride with the caller's bookings, or
`none`, or a store failure).  Mirrors the source line by line: store
failure is replaced by the generic message; missing ride is `NotFound`;
a "Cancelled" ride closes the chat; the driver is authenticated without
looking at bookings; otherwise a non-empty booking list authenticates
but its first element's status may close the chat; an empty booking list
leaves the sender unauthenticated. -/
def validateCredentialsRaw (fetched : Except String (Option (Ride × List Booking)))
    (userId : String) : Except String Bool :=
  match fetched with
  | .error _ => .error storeFailureMsg
  | .ok none => .error notFoundMsg
  | .ok (some (ride, bookings)) =>
    if ride.status == "Cancelled" then .error rideCancelledMsg
    else if ride.driverId == userId then .ok true
    else
      match bookings with
      | [] => .error unauthorizedMsg
      | b :: _ =>
        if b.status == "CancelledDriver" || b.status == "CancelledUser" then
          .error bookingCancelledMsg
        else .ok true

/-- The ride lookup of `validateCredentials`: the ride together with the
caller's bookings on it. -/
def rideLookup (s : Store) (rideId userId : String) : Option (Ride × List Booking) :=
  (s.findRide rideId).map (fun r => (r, s.bookingsFor rideId userId))

/-- `validateCredentials` against a healthy store (the lookup succeeds). -/
def validateCredentials (s : Store) (rideId userId : String) : Except String Bool :=
  validateCredentialsRaw (Except.ok (rideLookup s rideId userId)) userId

/-- `insertMessage`, given the outcomes of its two effects (validation and
`prisma.chatMessage.create`).  The surrounding try/catch logs and
re-raises the error unchanged in both cases. -/
def insertMessageRaw (validated : Except String Bool)
    (created : Except String ChatMessage) : Except String ChatMessage :=
  match validated with
  | .error e => .error e
  | .ok _ => created

/-- `prisma.chatMessage.create`: one new row with server-assigned id and
timestamp, appended to the table. -/
def Store.createMessage (s : Store) (rideId senderId content : String) :
    ChatMessage × Store :=
  let m : ChatMessage :=
    { id := s.nextId, rideId := rideId, userId := senderId,
      content := content, createdAt := s.now }
  (m, { s with messages := s.messages ++ [m], nextId := s.nextId + 1 })

/-- `insertMessage` against a healthy store: validate, then create the
row; on a validation error nothing is written and the error propagates. -/
def insertMessage (s : Store) (rideId senderId content : String) :
    Except String ChatMessage × Store :=
  match validateCredentials s rideId senderId with
  | .error e => (.error e, s)
  | .ok _ =>
    let created := s.createMessage rideId senderId content
    (.ok created.1, created.2)

/-- The `user` object attached to each returned message: the sender's
public profile plus the derived `isDriver` flag. -/
structure UserView where
  id : String
  name : Option String
  email : String
  isDriver : Bool
deriving Repr, DecidableEq

/-- A returned message: all `ChatMessage` fields (spread in the source)
plus the annotated `user`. -/
structure MessageView where
  id : Nat
  rideId : String
  userId : String
  content : String
  createdAt : Nat
  user : UserView
deriving Repr, DecidableEq

/-- The `ChatMessage` fields of a returned message. -/
def MessageView.core (mv : MessageView) : ChatMessage :=
  { id := mv.id, rideId := mv.rideId, userId := mv.userId,
    content := mv.content, createdAt := mv.createdAt }

/-- The `prisma.chatMessage.findMany` of `getMessagesByRide`: the ride's
messages, ordered by creation time ascending. -/
def sortedRideMessages (s : Store) (rideId : String) : List ChatMessage :=
  List.insertionSort (fun a b => a.createdAt ≤ b.createdAt)
    (s.messages.filter (fun m => m.rideId == rideId))

/-- Spreads the message, attaching the sender's public profile annotated
with `isDriver := (message.user.id == ride.driverId)`. -/
def annotate (s : Store) (driverId : String) (m : ChatMessage) : MessageView :=
  let u := userOrRef s m.userId
  { id := m.id, rideId := m.rideId, userId := m.userId,
    content := m.content, createdAt := m.createdAt,
    user := { id := u.id, name := u.name, email := u.email,
              isDriver := u.id == driverId } }

/-- `getMessagesByRide` with the two store reads made explicit: credential
validation reads snapshot `s1`; the ride re-fetch and the message query
read snapshot `s2` (validation and fetch are separate reads in the
source). -/
def getMessagesByRideTwo (s1 s2 : Store) (userId rideId : String) :
    Except String (List MessageView) :=
  match validateCredentials s1 rideId userId with
  | .error e => .error e
  | .ok _ =>
    match s2.findRide rideId with
    | none => .error notFoundMsg
    | some ride =>
      .ok ((sortedRideMessages s2 rideId).map (annotate s2 ride.driverId))

/-- `getMessagesByRide` when both reads see the same store. -/
def getMessagesByRide (s : Store) (userId rideId : String) :
    Except String (List MessageView) :=
  getMessagesByRideTwo s s userId rideId

/-- An entry of the participant list. -/
structure Participant where
  id : String
  name : String
  email : String
  isDriver : Bool
deriving Repr, DecidableEq

/-- JavaScript `name || fallback`: both a missing name and an empty string
are falsy and replaced by the fallback. -/
def jsNameOr (name : Option String) (fallback : String) : String :=
  match name with
  | none => fallback
  | some n => if n == "" then fallback else n

/-- The driver mapped as a participant (`isDriver: true`, name defaulted
to "Champion"). -/
def driverEntry (s : Store) (driverId : String) : Participant :=
  let driver := userOrRef s driverId
  { id := driver.id, name := jsNameOr driver.name "Champion",
    email := driver.email, isDriver := true }

/-- A booking's user mapped as a passenger participant (`isDriver: false`,
name defaulted to "Rider"). -/
def riderEntry (s : Store) (b : Booking) : Participant :=
  let u := userOrRef s b.userId
  { id := u.id, name := jsNameOr u.name "Rider",
    email := u.email, isDriver := false }

/-- `getRideParticipants`: the ride's driver followed by one entry per
booking of the ride, in store order, with no filtering on booking or ride
status. -/
def getRideParticipants (s : Store) (rideId : String) :
    Except String (List Participant) :=
  match s.findRide rideId with
  | none => .error notFoundMsg
  | some ride =>
    .ok (driverEntry s ride.driverId :: (s.bookingsOf rideId).map (riderEntry s))

/-! ### Concrete scenario stores (shared by witnesses) -/

/-- A healthy scenario: ride "r1" driven by "d", one confirmed booking by
"u", two messages stored newest-first. -/
def msgStore : Store :=
  { rides := [{ id := "r1", driverId := "d", status := "Confirmed" }],
    bookings := [{ id := "b1", rideId := "r1", userId := "u", status := "Confirmed" }],
    messages := [{ id := 1, rideId := "r1", userId := "u", content := "later", createdAt := 9 },
                 { id := 0, rideId := "r1", userId := "d", content := "early", createdAt := 3 }],
    users := [{ id := "d", name := some "Dan", email := "d@x" },
              { id := "u", name := none, email := "u@x" }],
    nextId := 2, now := 10 }

/-- `msgStore` with the booking switched to "CancelledUser". -/
def cancelledBookingStore : Store :=
  { msgStore with
    bookings := [{ id := "b1", rideId := "r1", userId := "u", status := "CancelledUser" }] }

/-- `msgStore` with the ride switched to "Cancelled". -/
def cancelledRideStore : Store :=
  { msgStore with
    rides := [{ id := "r1", driverId := "d", status := "Cancelled" }] }

/-- A store with no rows at all. -/
def emptyStore : Store :=
  { rides := [], bookings := [], messages := [], users := [], nextId := 0, now := 0 }

/-- The driver "d" also holds a cancelled booking on their own ride. -/
def driverCancelledBookingStore : Store :=
  { msgStore with
    bookings := [{ id := "b1", rideId := "r1", userId := "d", status := "CancelledUser" }] }

/-- User "u" holds two bookings on "r1": the first confirmed, the second
cancelled. -/
def twoBookingStore : Store :=
  { msgStore with
    bookings := [{ id := "b1", rideId := "r1", userId := "u", status := "Confirmed" },
                 { id := "b2", rideId := "r1", userId := "u", status := "CancelledUser" }] }

/-- The message list `getMessagesByRide` returns on `msgStore`. -/
def c4List : List MessageView :=
  [{ id := 0, rideId := "r1", userId := "d", content := "early", createdAt := 3,
     user := { id := "d", name := some "Dan", email := "d@x", isDriver := true } },
   { id := 1, rideId := "r1", userId := "u", content := "later", createdAt := 9,
     user := { id := "u", name := none, email := "u@x", isDriver := false } }]

instance : IsTotal ChatMessage (fun a b => a.createdAt ≤ b.createdAt) :=
  ⟨fun a b => Nat.le_total a.createdAt b.createdAt⟩

instance : IsTrans ChatMessage (fun a b => a.createdAt ≤ b.createdAt) :=
  ⟨fun _ _ _ => Nat.le_trans⟩

/-! ### Helper lemmas -/

/-- The relation target carries the id it was dereferenced by. -/
theorem userOrRef_id (s : Store) (uid : String) : (userOrRef s uid).id = uid := by
  unfold userOrRef Store.findUser
  cases h : s.users.find? (fun u => u.id == uid) with
  | none => rfl
  | some u =>
    have hp := List.find?_some h
    simpa using hp

/-- When the ride is found, validation runs on the ride and the caller's
bookings. -/
theorem validate_with_ride (s : Store) (rideId userId : String) (r : Ride)
    (hr : s.findRide rideId = some r) :
    validateCredentials s rideId userId =
      validateCredentialsRaw
        (Except.ok (some (r, s.bookingsFor rideId userId))) userId := by
  unfold validateCredentials rideLookup
  rw [hr]
  rfl

/-- A validation error makes `insertMessage` return it with the store
untouched. -/
theorem insertMessage_of_validate_error (s : Store) (rideId userId content e : String)
    (h : validateCredentials s rideId userId = .error e) :
    insertMessage s rideId userId content = (.error e, s) := by
  unfold insertMessage
  rw [h]

/-- A validation error makes `getMessagesByRide` return it. -/
theorem getMessages_of_validate_error (s : Store) (userId rideId e : String)
    (h : validateCredentials s rideId userId = .error e) :
    getMessagesByRide s userId rideId = .error e := by
  unfold getMessagesByRide getMessagesByRideTwo
  rw [h]

/-! ### Claim theorems -/

/-- C1: a user who is not the driver and is authorized via a booking (the
first booking returned for them) whose status is "CancelledDriver" or
"CancelledUser" gets a ChatClosed failure from both `insertMessage` and
`getMessagesByRide`; the booking cancellation overrides the authorization
already granted. -/
theorem cancelledBooking_chatClosed (s : Store) (rideId userId content : String)
    (r : Ride) (b : Booking) (rest : List Booking)
    (hr : s.findRide rideId = some r)
    (hnd : r.driverId ≠ userId)
    (hb : s.bookingsFor rideId userId = b :: rest)
    (hbc : b.status = "CancelledDriver" ∨ b.status = "CancelledUser") :
    (∃ e, (insertMessage s rideId userId content).1 = .error e ∧ isChatClosed e) ∧
    (∃ e, getMessagesByRide s userId rideId = .error e ∧ isChatClosed e) := by
  have hv : ∃ e, validateCredentials s rideId userId = .error e ∧ isChatClosed e := by
    rw [validate_with_ride s rideId userId r hr, hb]
    unfold validateCredentialsRaw
    by_cases hc : r.status = "Cancelled"
    · exact ⟨rideCancelledMsg, by simp [hc], Or.inl rfl⟩
    · have h1 : (r.status == "Cancelled") = false := by simpa using hc
      have h2 : (r.driverId == userId) = false := by simpa using hnd
      refine ⟨bookingCancelledMsg, ?_, Or.inr rfl⟩
      rcases hbc with h | h <;> simp [h1, h2, h]
  obtain ⟨e, he, hcc⟩ := hv
  refine ⟨⟨e, ?_, hcc⟩, ⟨e, getMessages_of_validate_error s userId rideId e he, hcc⟩⟩
  rw [insertMessage_of_validate_error s rideId userId content e he]

/-- C1 witness: concrete cancelled-booking scenario. -/
theorem cancelledBooking_chatClosed_witness :
    (∃ e, (insertMessage cancelledBookingStore "r1" "u" "hi").1 = .error e ∧ isChatClosed e) ∧
    (∃ e, getMessagesByRide cancelledBookingStore "u" "r1" = .error e ∧ isChatClosed e) :=
  cancelledBooking_chatClosed cancelledBookingStore "r1" "u" "hi"
    { id := "r1", driverId := "d", status := "Confirmed" }
    { id := "b1", rideId := "r1", userId := "u", status := "CancelledUser" } []
    (by rfl) (by decide) (by rfl) (Or.inr rfl)

/-- C2: when the ride's status is "Cancelled", `insertMessage` and
`getMessagesByRide` fail with the ride-cancelled ChatClosed error for
every caller identity. -/
theorem cancelledRide_chatClosed (s : Store) (rideId userId content : String)
    (r : Ride) (hr : s.findRide rideId = some r) (hc : r.status = "Cancelled") :
    (insertMessage s rideId userId content).1 = .error rideCancelledMsg ∧
    getMessagesByRide s userId rideId = .error rideCancelledMsg ∧
    isChatClosed rideCancelledMsg := by
  have he : validateCredentials s rideId userId = .error rideCancelledMsg := by
    rw [validate_with_ride s rideId userId r hr]
    unfold validateCredentialsRaw
    simp [hc]
  refine ⟨?_, getMessages_of_validate_error s userId rideId _ he, Or.inl rfl⟩
  rw [insertMessage_of_validate_error s rideId userId content _ he]

/-- C2 witness: concrete cancelled-ride scenario, with an unrelated
caller. -/
theorem cancelledRide_chatClosed_witness :
    (insertMessage cancelledRideStore "r1" "zz" "hi").1 = .error rideCancelledMsg ∧
    getMessagesByRide cancelledRideStore "zz" "r1" = .error rideCancelledMsg ∧
    isChatClosed rideCancelledMsg :=
  cancelledRide_chatClosed cancelledRideStore "r1" "zz" "hi"
    { id := "r1", driverId := "d", status := "Cancelled" } (by rfl) rfl

/-- C3: on an existing, non-cancelled ride, a user who is neither the
driver nor the holder of any booking on the ride gets the Unauthorized
error from both operations. -/
theorem unrelated_user_unauthorized (s : Store) (rideId userId content : String)
    (r : Ride) (hr : s.findRide rideId = some r)
    (hnc : r.status ≠ "Cancelled")
    (hnd : r.driverId ≠ userId)
    (hnb : s.bookingsFor rideId userId = []) :
    (insertMessage s rideId userId content).1 = .error unauthorizedMsg ∧
    getMessagesByRide s userId rideId = .error unauthorizedMsg := by
  have he : validateCredentials s rideId userId = .error unauthorizedMsg := by
    rw [validate_with_ride s rideId userId r hr, hnb]
    unfold validateCredentialsRaw
    have h1 : (r.status == "Cancelled") = false := by simpa using hnc
    have h2 : (r.driverId == userId) = false := by simpa using hnd
    simp [h1, h2]
  refine ⟨?_, getMessages_of_validate_error s userId rideId _ he⟩
  rw [insertMessage_of_validate_error s rideId userId content _ he]

/-- C3 witness: "zz" holds no booking on "r1" and is not its driver. -/
theorem unrelated_user_unauthorized_witness :
    (insertMessage msgStore "r1" "zz" "hi").1 = .error unauthorizedMsg ∧
    getMessagesByRide msgStore "zz" "r1" = .error unauthorizedMsg :=
  unrelated_user_unauthorized msgStore "r1" "zz" "hi"
    { id := "r1", driverId := "d", status := "Confirmed" }
    (by rfl) (by decide) (by decide) (by rfl)

/-- C9: validation looks at no booking when the caller is the driver, and
at only the first returned booking otherwise: a driver passes whatever
bookings they hold, and a non-driver whose first booking is active passes
whatever the later bookings' statuses are. -/
theorem validate_firstBooking_only (s : Store) (rideId userId : String)
    (r : Ride) (hr : s.findRide rideId = some r) (hnc : r.status ≠ "Cancelled") :
    (r.driverId = userId → validateCredentials s rideId userId = .ok true) ∧
    (∀ b rest, s.bookingsFor rideId userId = b :: rest →
      b.status ≠ "CancelledDriver" → b.status ≠ "CancelledUser" →
      validateCredentials s rideId userId = .ok true) := by
  have h1 : (r.status == "Cancelled") = false := by simpa using hnc
  constructor
  · intro hd
    rw [validate_with_ride s rideId userId r hr]
    unfold validateCredentialsRaw
    simp [h1, hd]
  · intro b rest hb hcd hcu
    rw [validate_with_ride s rideId userId r hr, hb]
    unfold validateCredentialsRaw
    have h3 : (b.status == "CancelledDriver") = false := by simpa using hcd
    have h4 : (b.status == "CancelledUser") = false := by simpa using hcu
    by_cases hd : r.driverId = userId <;> simp [h1, h3, h4, hd]

/-- C9 witness: the driver with a cancelled booking on their own ride is
still authorized, and a rider whose first booking is active is authorized
despite a second, cancelled booking. -/
theorem validate_firstBooking_only_witness :
    validateCredentials driverCancelledBookingStore "r1" "d" = .ok true ∧
    validateCredentials twoBookingStore "r1" "u" = .ok true :=
  ⟨(validate_firstBooking_only driverCancelledBookingStore "r1" "d"
      { id := "r1", driverId := "d", status := "Confirmed" }
      (by rfl) (by decide)).1 rfl,
   (validate_firstBooking_only twoBookingStore "r1" "u"
      { id := "r1", driverId := "d", status := "Confirmed" }
      (by rfl) (by decide)).2
     { id := "b1", rideId := "r1", userId := "u", status := "Confirmed" }
     [{ id := "b2", rideId := "r1", userId := "u", status := "CancelledUser" }]
     (by rfl) (by decide) (by decide)⟩

/-- C5: for an existing ride, `getRideParticipants` returns exactly
1 + (number of bookings of the ride) entries: first the driver, flagged
`isDriver`, with the ride's driver id and name defaulted to "Champion"
when unset; then one entry per booking's user, not flagged, name
defaulted to "Rider" when unset, in store booking order with no
filtering by booking status. -/
theorem participants_shape (s : Store) (rideId : String) (r : Ride)
    (hr : s.findRide rideId = some r) :
    ∃ hd tl, getRideParticipants s rideId = .ok (hd :: tl) ∧
      (hd :: tl).length = 1 + (s.bookingsOf rideId).length ∧
      hd.isDriver = true ∧ hd.id = r.driverId ∧
      (∀ u, s.findUser r.driverId = some u → u.name = none →
        hd.name = "Champion") ∧
      (∀ i (hi : i < (s.bookingsOf rideId).length),
        ∃ hti : i < tl.length,
          (tl.get ⟨i, hti⟩).isDriver = false ∧
          (tl.get ⟨i, hti⟩).id = ((s.bookingsOf rideId).get ⟨i, hi⟩).userId ∧
          (∀ u, s.findUser ((s.bookingsOf rideId).get ⟨i, hi⟩).userId = some u →
            u.name = none → (tl.get ⟨i, hti⟩).name = "Rider")) := by
  refine ⟨driverEntry s r.driverId, (s.bookingsOf rideId).map (riderEntry s),
    ?_, ?_, rfl, userOrRef_id s r.driverId, ?_, ?_⟩
  · unfold getRideParticipants
    rw [hr]
  · simp [Nat.add_comm]
  · intro u hu hn
    show jsNameOr (userOrRef s r.driverId).name "Champion" = "Champion"
    unfold userOrRef
    rw [hu]
    show jsNameOr u.name "Champion" = "Champion"
    rw [hn]
    rfl
  · intro i hi
    have hti : i < ((s.bookingsOf rideId).map (riderEntry s)).length := by
      simpa using hi
    have hget : ((s.bookingsOf rideId).map (riderEntry s)).get ⟨i, hti⟩ =
        riderEntry s ((s.bookingsOf rideId).get ⟨i, hi⟩) := by
      simp
    refine ⟨hti, ?_, ?_, ?_⟩
    · rw [hget]
      rfl
    · rw [hget]
      exact userOrRef_id s _
    · intro u hu hn
      rw [hget]
      show jsNameOr (userOrRef s _).name "Rider" = "Rider"
      unfold userOrRef
      rw [hu]
      show jsNameOr u.name "Rider" = "Rider"
      rw [hn]
      rfl

/-- C5 witness: on `msgStore`, the entries are the named driver "Dan" and
the unnamed rider defaulted to "Rider". -/
theorem participants_shape_witness :
    ∃ hd tl, getRideParticipants msgStore "r1" = .ok (hd :: tl) ∧
      (hd :: tl).length = 1 + (msgStore.bookingsOf "r1").length ∧
      hd.isDriver = true ∧
      hd.id = ({ id := "r1", driverId := "d", status := "Confirmed" } : Ride).driverId ∧
      (∀ u, msgStore.findUser
          ({ id := "r1", driverId := "d", status := "Confirmed" } : Ride).driverId = some u →
        u.name = none → hd.name = "Champion") ∧
      (∀ i (hi : i < (msgStore.bookingsOf "r1").length),
        ∃ hti : i < tl.length,
          (tl.get ⟨i, hti⟩).isDriver = false ∧
          (tl.get ⟨i, hti⟩).id = ((msgStore.bookingsOf "r1").get ⟨i, hi⟩).userId ∧
          (∀ u, msgStore.findUser ((msgStore.bookingsOf "r1").get ⟨i, hi⟩).userId = some u →
            u.name = none → (tl.get ⟨i, hti⟩).name = "Rider")) :=
  participants_shape msgStore "r1"
    { id := "r1", driverId := "d", status := "Confirmed" } (by rfl)

/-- C6: `insertMessage` is atomic — it either returns the created message,
carrying exactly the given ride, sender, and content, with precisely that
one row appended to the message table, or it returns an error with the
store unchanged; a Credential Validator failure is propagated unchanged
with no row created. -/
theorem insertMessage_atomic (s : Store) (rideId senderId content : String) :
    ((∃ m s2, insertMessage s rideId senderId content = (.ok m, s2) ∧
        m.rideId = rideId ∧ m.userId = senderId ∧ m.content = content ∧
        s2.messages = s.messages ++ [m]) ∨
      (∃ e, insertMessage s rideId senderId content = (.error e, s))) ∧
    (∀ e, validateCredentials s rideId senderId = .error e →
      insertMessage s rideId senderId content = (.error e, s)) := by
  constructor
  · cases hv : validateCredentials s rideId senderId with
    | error e =>
      exact Or.inr ⟨e, insertMessage_of_validate_error s rideId senderId content e hv⟩
    | ok b =>
      refine Or.inl ⟨(s.createMessage rideId senderId content).1,
        (s.createMessage rideId senderId content).2, ?_, rfl, rfl, rfl, rfl⟩
      unfold insertMessage
      rw [hv]
  · exact fun e he => insertMessage_of_validate_error s rideId senderId content e he

/-- C6 witness: an unauthorized insert attempt on `msgStore` fails and
leaves the store exactly as it was. -/
theorem insertMessage_atomic_witness :
    insertMessage msgStore "r1" "zz" "hi" = (.error unauthorizedMsg, msgStore) :=
  (insertMessage_atomic msgStore "r1" "zz" "hi").2 unauthorizedMsg (by rfl)

/-- C7: a missing ride makes the Credential Validator — and hence
`insertMessage` and `getMessagesByRide` — fail with NotFound; and when
validation passed against one snapshot but the ride is gone from the
snapshot read at fetch time, `getMessagesByRide`'s re-check fails with
NotFound. -/
theorem notFound_on_missing_ride (s s2 : Store) (userId rideId content : String) :
    (s.findRide rideId = none →
      validateCredentials s rideId userId = .error notFoundMsg ∧
      (insertMessage s rideId userId content).1 = .error notFoundMsg ∧
      getMessagesByRide s userId rideId = .error notFoundMsg) ∧
    (∀ b, validateCredentials s rideId userId = .ok b →
      s2.findRide rideId = none →
      getMessagesByRideTwo s s2 userId rideId = .error notFoundMsg) := by
  constructor
  · intro h
    have hv : validateCredentials s rideId userId = .error notFoundMsg := by
      unfold validateCredentials rideLookup
      rw [h]
      rfl
    exact ⟨hv,
      by rw [insertMessage_of_validate_error s rideId userId content _ hv],
      getMessages_of_validate_error s userId rideId _ hv⟩
  · intro b hv h2
    unfold getMessagesByRideTwo
    rw [hv, h2]

/-- C7 witness: the empty store yields NotFound everywhere, and a ride
present at validation but gone at fetch time yields NotFound from the
re-check. -/
theorem notFound_on_missing_ride_witness :
    getMessagesByRide emptyStore "u" "r1" = .error notFoundMsg ∧
    getMessagesByRideTwo msgStore emptyStore "d" "r1" = .error notFoundMsg :=
  ⟨((notFound_on_missing_ride emptyStore emptyStore "u" "r1" "x").1 (by rfl)).2.2,
   (notFound_on_missing_ride msgStore emptyStore "d" "r1" "x").2 true (by rfl) (by rfl)⟩

/-- C8: a store failure in the validator's ride lookup is replaced by the
generic user-safe message — the raw store error text never reaches the
caller — while a store failure during the insert itself is re-raised
unchanged; the last conjunct shows `insertMessage` is exactly this
composition of its two effects. -/
theorem storeFailure_substituted :
    (∀ e userId, validateCredentialsRaw (.error e) userId = .error storeFailureMsg) ∧
    (∀ e userId, e ≠ storeFailureMsg →
      validateCredentialsRaw (.error e) userId ≠ .error e) ∧
    (∀ v e, insertMessageRaw (.ok v) (.error e) = .error e) ∧
    (∀ s rideId senderId content,
      (insertMessage s rideId senderId content).1 =
        insertMessageRaw (validateCredentials s rideId senderId)
          (.ok (s.createMessage rideId senderId content).1)) := by
  refine ⟨fun e userId => rfl, ?_, fun v e => rfl, ?_⟩
  · intro e userId hne h
    exact hne (Except.error.inj h.symm)
  · intro s rideId senderId content
    unfold insertMessage insertMessageRaw
    cases validateCredentials s rideId senderId <;> rfl

/-- C8 witness: concrete raw store errors. -/
theorem storeFailure_substituted_witness :
    validateCredentialsRaw (.error "db connection lost") "u" = .error storeFailureMsg ∧
    insertMessageRaw (.ok true) (.error "unique constraint failed") =
      .error "unique constraint failed" :=
  ⟨storeFailure_substituted.1 "db connection lost" "u",
   storeFailure_substituted.2.2.1 true "unique constraint failed"⟩

/-- C10: `getRideParticipants` performs no credential validation: it
succeeds for every existing ride — the ride's status, "Cancelled"
included, and the caller are never consulted — and its only failure in
the store model is NotFound when the ride is missing. -/
theorem participants_unconditional (s : Store) (rideId : String) :
    (s.findRide rideId = none → getRideParticipants s rideId = .error notFoundMsg) ∧
    (∀ r, s.findRide rideId = some r → ∃ ps, getRideParticipants s rideId = .ok ps) := by
  constructor
  · intro h
    unfold getRideParticipants
    rw [h]
  · intro r hr
    unfold getRideParticipants
    rw [hr]
    exact ⟨_, rfl⟩

/-- When validation passes and the ride is found, `getMessagesByRide`
returns the annotated sort of the ride's messages. -/
theorem getMessages_ok_form (s : Store) (userId rideId : String) (b : Bool)
    (ride : Ride)
    (hv : validateCredentials s rideId userId = .ok b)
    (hr : s.findRide rideId = some ride) :
    getMessagesByRide s userId rideId =
      .ok ((sortedRideMessages s rideId).map (annotate s ride.driverId)) := by
  unfold getMessagesByRide getMessagesByRideTwo
  rw [hv, hr]

/-- C4: a successful `getMessagesByRide` returns the ride's messages in
non-decreasing creation-time order — a permutation of exactly the ride's
stored messages — and each returned message's `user.isDriver` flag is
true iff the message's sender id equals the ride's driverId. -/
theorem getMessages_sorted_isDriver (s : Store) (userId rideId : String)
    (l : List MessageView)
    (h : getMessagesByRide s userId rideId = .ok l) :
    List.Pairwise (fun a b => a.createdAt ≤ b.createdAt) l ∧
    (l.map MessageView.core).Perm
      (s.messages.filter (fun m => m.rideId == rideId)) ∧
    ∃ r, s.findRide rideId = some r ∧
      ∀ mv ∈ l, (mv.user.isDriver = true ↔ mv.userId = r.driverId) := by
  unfold getMessagesByRide getMessagesByRideTwo at h
  cases hv : validateCredentials s rideId userId with
  | error e => rw [hv] at h; exact absurd h (by simp)
  | ok b =>
    rw [hv] at h
    cases hrr : s.findRide rideId with
    | none => rw [hrr] at h; exact absurd h (by simp)
    | some ride =>
      rw [hrr] at h
      simp only [Except.ok.injEq] at h
      subst h
      have hcore : (MessageView.core ∘ annotate s ride.driverId) = id :=
        funext fun m => rfl
      refine ⟨?_, ?_, ride, rfl, ?_⟩
      · have hs := List.sorted_insertionSort
          (fun a b : ChatMessage => a.createdAt ≤ b.createdAt)
          (s.messages.filter (fun m => m.rideId == rideId))
        exact hs.map _ (fun a b hab => hab)
      · rw [List.map_map, hcore, List.map_id]
        exact List.perm_insertionSort _ _
      · intro mv hmv
        obtain ⟨m, _, rfl⟩ := List.mem_map.mp hmv
        show ((userOrRef s m.userId).id == ride.driverId) = true ↔
          m.userId = ride.driverId
        rw [userOrRef_id]
        exact beq_iff_eq

/-- C4 witness: the two stored messages of `msgStore` come back oldest
first with correct driver flags. -/
theorem getMessages_sorted_isDriver_witness :
    List.Pairwise (fun a b : MessageView => a.createdAt ≤ b.createdAt) c4List ∧
    (c4List.map MessageView.core).Perm
      (msgStore.messages.filter (fun m => m.rideId == "r1")) ∧
    ∃ r, msgStore.findRide "r1" = some r ∧
      ∀ mv ∈ c4List, (mv.user.isDriver = true ↔ mv.userId = r.driverId) :=
  getMessages_sorted_isDriver msgStore "d" "r1" c4List (by rfl)

/-- C10 witness: the participant list of a cancelled ride is returned
successfully. -/
theorem participants_unconditional_witness :
    ∃ ps, getRideParticipants cancelledRideStore "r1" = .ok ps :=
  (participants_unconditional cancelledRideStore "r1").2
    { id := "r1", driverId := "d", status := "Cancelled" } (by rfl)

end ShareCO2
